import Mathlib

/-!
Shallow embedding of `src/handler_runpod.py` (Chandra OCR RunPod worker).

External collaborators (network fetch, document loader `chandra.input.load_file`,
inference engine `InferenceManager.generate`, the filesystem unlink outcome, and
the health-poll observations seen by the readiness wait) are modelled as oracle
fields of an `Env` record.  Side effects are recorded as an explicit trace of
`Effect`s in program order.  Python exceptions become an `Except PyExc` result:
`PyExc.inputError` models the script's `InputError`, `PyExc.other` models every
other exception (`RuntimeError`, loader failures, ...).
-/

namespace Chandra

/-- Standard base64 alphabet, as used by Python's `base64` module. -/
def b64Alphabet : List Char :=
  "ABCDEFGHIJKLMNOPQRSTUVWXYZabcdefghijklmnopqrstuvwxyz0123456789+/".toList

/-- Character for a 6-bit value, as produced by `base64.b64encode`. -/
def b64EncChar (v : Nat) : Char := b64Alphabet.getD v 'A'

/-- Value of an alphabet character; `none` for characters outside the alphabet. -/
def b64DecChar (c : Char) : Option Nat := b64Alphabet.findIdx? (fun a => a == c)

/-- Models `base64.b64encode`: 3 input bytes become 4 alphabet characters, a
trailing byte or byte pair is padded with `=`. -/
def b64encodeList : List Nat → List Char
  | [] => []
  | [x] => [b64EncChar (x / 4), b64EncChar (x % 4 * 16), '=', '=']
  | [x, y] => [b64EncChar (x / 4), b64EncChar (x % 4 * 16 + y / 16),
      b64EncChar (y % 16 * 4), '=']
  | x :: y :: z :: rest =>
      b64EncChar (x / 4) :: b64EncChar (x % 4 * 16 + y / 16) ::
      b64EncChar (y % 16 * 4 + z / 64) :: b64EncChar (z % 64) :: b64encodeList rest

/-- Models `base64.b64encode` on a byte list, returning the encoded string. -/
def b64encode (bs : List Nat) : String := String.mk (b64encodeList bs)

/-- Core loop of CPython's `binascii.a2b_base64` in non-strict mode (what
`base64.b64decode(s)` calls): characters outside the alphabet are skipped, a
pad `=` when at least two data characters are pending completes the quad and
stops reading, and a leftover of 1..3 pending characters at the end is a
`binascii.Error`.  Arguments: remaining characters, quad position (0..3),
pending bits, pads seen in the current run. -/
def a2bAux : List Char → Nat → Nat → Nat → Option (List Nat)
  | [], 0, _, _ => some []
  | [], _ + 1, _, _ => none
  | c :: rest, qp, lc, pads =>
    if c = '=' then
      if 2 ≤ qp then
        if 4 ≤ qp + (pads + 1) then some []
        else a2bAux rest qp lc (pads + 1)
      else a2bAux rest qp lc pads
    else
      match b64DecChar c with
      | none => a2bAux rest qp lc pads
      | some v =>
        match qp with
        | 0 => a2bAux rest 1 v 0
        | 1 => (a2bAux rest 2 (v % 16) 0).map (fun out => (lc * 4 + v / 16) :: out)
        | 2 => (a2bAux rest 3 (v % 4) 0).map (fun out => (lc * 16 + v / 4) :: out)
        | _ => (a2bAux rest 0 0 0).map (fun out => (lc * 64 + v) :: out)

/-- Models `base64.b64decode(s)` for a Python `str` argument: non-ASCII input
raises `ValueError` before decoding (modelled as `none`), otherwise the
non-strict `a2b_base64` loop runs. -/
def b64decode (s : String) : Option (List Nat) :=
  if s.toList.any (fun c => 127 < c.toNat) then none
  else a2bAux s.toList 0 0 0

example : b64decode "aGk=" = some [104, 105] := by decide
example : b64decode "ab==" = some [105] := by decide
example : b64decode "ab" = none := by decide
example : b64decode "a" = none := by decide
example : b64decode "====" = some [] := by decide
example : b64decode "aGk=XYZ" = some [104, 105] := by decide
example : b64encode [105] = "aQ==" := by decide

/-- Models Python's `str.lower()` (ASCII case folding suffices here). -/
def pyLower (s : String) : String := String.mk (s.toList.map Char.toLower)

/-- Models Python's `str.strip()`: drop whitespace from both ends. -/
def pyStrip (s : String) : String :=
  String.mk (((s.toList.dropWhile Char.isWhitespace).reverse.dropWhile
    Char.isWhitespace).reverse)

/-- Decimal digits (most significant first) to a number. -/
def digitsToNat : List Char → Option Nat
  | [] => Option.none
  | ds =>
    if ds.all Char.isDigit then
      some (ds.foldl (fun acc c => acc * 10 + (c.toNat - 48)) 0)
    else Option.none

/-- Models Python's `int(s)` on a string: optional sign around decimal digits
after stripping whitespace; `none` models the raised `ValueError`. -/
def pyIntOfStr (s : String) : Option Int :=
  match (pyStrip s).toList with
  | '+' :: ds => (digitsToNat ds).map Int.ofNat
  | '-' :: ds => (digitsToNat ds).map (fun n => -(n : Int))
  | ds => (digitsToNat ds).map Int.ofNat

/-- Values a job-input field can hold, mirroring the JSON-ish values the
RunPod runtime passes: `None`, booleans, integers, strings. -/
inductive PyVal
  | pynone
  | pybool (b : Bool)
  | pyint (n : Int)
  | pystr (s : String)
deriving DecidableEq, Repr

/-- The `job["input"]` mapping.  Each field is `some v` when the key is
present with value `v` and `none` when the key is absent; `extraKeys` records
whether the dict holds further keys the handler never reads (so `isEmptyDict`
can model Python's `if not job_input`). -/
structure JobInput where
  file : Option String
  file_b64 : Option String
  file_url : Option String
  filename : Option String
  page_range : Option PyVal
  prompt : Option String
  prompt_type : Option String
  max_output_tokens : Option PyVal
  include_images : Option PyVal
  include_headers_footers : Option PyVal
  extraKeys : Bool
deriving Repr

/-- Models Python's `if not job_input` on the input dict. -/
def JobInput.isEmptyDict (j : JobInput) : Bool :=
  j.file.isNone && j.file_b64.isNone && j.file_url.isNone && j.filename.isNone &&
  j.page_range.isNone && j.prompt.isNone && j.prompt_type.isNone &&
  j.max_output_tokens.isNone && j.include_images.isNone &&
  j.include_headers_footers.isNone && !j.extraKeys

/-- Truthiness of `dict.get(key)` for a string-valued key: `None` and the
empty string are falsy. -/
def truthyStrOpt : Option String → Bool
  | Option.none => false
  | some s => !s.isEmpty

/-- Python's `a or b` on string-or-None values: `a` when truthy, else `b`. -/
def pyOrStr (a b : Option String) : Option String :=
  if truthyStrOpt a then a else b

/-- Exceptions of the handler script: `inputError` is the script's own
`InputError`; `other` stands for every other Python exception. -/
inductive PyExc
  | inputError (msg : String)
  | other (msg : String)
deriving DecidableEq, Repr

/-- Observable side effects of one job, in program order. -/
inductive Effect
  | fetchUrl (url : String)
  | writeTemp
  | loadFile
  | unlinkTemp
  | launchVllm
  | constructManager
  | inference
deriving DecidableEq, Repr

/-- Outcome of `tmp_path.unlink()` in the `finally` block. -/
inductive UnlinkOutcome
  | ok
  | notFound
  | fail (msg : String)
deriving DecidableEq, Repr

/-- One iteration of the readiness poll: whether `vllm_process.poll()` reports
the process as exited, and what `urlopen(status_url)` yields (`status n`), or
`exn` when the request raises. -/
structure PollObs where
  procExited : Bool
  http : Option Nat
deriving DecidableEq, Repr

/-- One item of the inference batch (`chandra.model.schema.BatchInputItem`);
the page image itself is opaque and modelled by a numeric id. -/
structure BatchInputItem where
  image : Nat
  prompt : Option String
  prompt_type : String
deriving DecidableEq, Repr

/-- One per-page result returned by the external inference engine; `chunks` is
opaque and modelled by a numeric id. -/
structure PageResult where
  markdown : String
  html : String
  token_count : Nat
  chunks : Nat
  error : Option String
deriving DecidableEq, Repr

/-- One entry of the `pages` array built by `process_job`. -/
structure Page where
  page_index : Nat
  markdown : String
  html : String
  token_count : Nat
  chunks : Nat
  error : Option String
deriving DecidableEq, Repr

/-- The success dictionary returned by `process_job`. -/
structure JobResult where
  filename : String
  num_pages : Nat
  markdown : String
  html : String
  pages : List Page
deriving DecidableEq, Repr

/-- Oracles for the external collaborators: the network fetch of `file_url`,
the document loader `load_file` (bytes and the `page_range` config entry to a
list of page-image ids, or a raised exception), the unlink outcome, the
inference engine, the filename derived by `Path(urlparse(url).path).name`, and
the sequence of health-poll observations the readiness wait sees. -/
structure Env where
  fetch : String → Except String (List Nat)
  load_file : List Nat → Option PyVal → Except String (List Nat)
  unlink : UnlinkOutcome
  generate : List BatchInputItem → Int → Bool → Bool → Except String (List PageResult)
  urlFileName : String → String
  polls : List PollObs

/-- The environment variables the script reads. -/
structure Cfg where
  chandra_method : Option String
  start_flag : Option String
  vllm_port : Option String
  vllm_host : Option String
  vllm_api_base : Option String
  chandra_model : Option String

/-- Module-level mutable state: the `manager` singleton (a handle id), how many
times an `InferenceManager` was constructed, whether the vLLM subprocess is
running and how many times it was spawned. -/
structure MgrState where
  manager : Option Nat
  constructCount : Nat
  vllmRunning : Bool
  vllmStarts : Nat
deriving DecidableEq, Repr

/-- Models `bool_from_input`. -/
def bool_from_input (value : Option PyVal) (default : Bool) : Bool :=
  match value with
  | Option.none => default
  | some PyVal.pynone => default
  | some (PyVal.pybool b) => b
  | some (PyVal.pystr s) => ["1", "true", "yes", "on"].contains (pyLower (pyStrip s))
  | some (PyVal.pyint n) => n != 0

/-- Models `int_from_input`: `None` gives the default, non-convertible values
raise `InputError`. -/
def int_from_input (value : Option PyVal) (default : Int) : Except PyExc Int :=
  match value with
  | Option.none => Except.ok default
  | some PyVal.pynone => Except.ok default
  | some (PyVal.pybool b) => Except.ok (if b then 1 else 0)
  | some (PyVal.pyint n) => Except.ok n
  | some (PyVal.pystr s) =>
    match pyIntOfStr s with
    | some n => Except.ok n
    | Option.none => Except.error (PyExc.inputError "max_output_tokens must be an integer.")

/-- Models `get_file_payload`: returns the file bytes and filename, or raises
`InputError`; the second component is the effect trace (a network fetch at
most). -/
def get_file_payload (env : Env) (j : JobInput) :
    Except PyExc (List Nat × String) × List Effect :=
  if j.isEmptyDict then
    (Except.error (PyExc.inputError "Job input cannot be empty."), [])
  else
    let fb := pyOrStr j.file j.file_b64
    if truthyStrOpt fb then
      match b64decode (fb.getD "") with
      | Option.none =>
        (Except.error (PyExc.inputError "Unable to decode \x27file\x27 payload."), [])
      | some bs => (Except.ok (bs, j.filename.getD "document.pdf"), [])
    else if truthyStrOpt j.file_url then
      let url := j.file_url.getD ""
      match env.fetch url with
      | Except.error _ =>
        (Except.error (PyExc.inputError ("Failed to download file from " ++ url)),
         [Effect.fetchUrl url])
      | Except.ok bs =>
        let fname := pyOrStr (pyOrStr j.filename (some (env.urlFileName url)))
          (some "document.pdf")
        (Except.ok (bs, fname.getD "document.pdf"), [Effect.fetchUrl url])
    else
      (Except.error (PyExc.inputError
        "Provide either \x27file\x27 (base64) or \x27file_url\x27 in the input."), [])

/-- Models Python's `s.rstrip("/")`. -/
def rstripSlash (s : String) : String :=
  String.mk ((s.toList.reverse.dropWhile (fun c => c = '/')).reverse)

/-- The API base used by `wait_for_vllm_ready`: `VLLM_API_BASE`, defaulting to
`http://127.0.0.1:<VLLM_PORT or 8000>/v1`, with trailing slashes stripped. -/
def Cfg.apiBase (cfg : Cfg) : String :=
  rstripSlash (cfg.vllm_api_base.getD
    ("http://127.0.0.1:" ++ cfg.vllm_port.getD "8000" ++ "/v1"))

/-- The health-check URL `<api_base>/models`. -/
def Cfg.statusUrl (cfg : Cfg) : String := cfg.apiBase ++ "/models"

/-- Message of the `RuntimeError` raised when the deadline passes. -/
def timedOutMsg (statusUrl : String) : String :=
  "Timed out waiting for vLLM server at " ++ statusUrl

/-- Message of the `RuntimeError` raised when the subprocess exits during
startup. -/
def terminatedMsg : String := "vLLM server terminated during startup."

/-- Outcome of the readiness wait: the server answered, or a `RuntimeError`
with the given message was raised. -/
inductive WaitOut
  | ready
  | failure (msg : String)
deriving DecidableEq, Repr

/-- The `while time.time() < deadline` polling loop of `wait_for_vllm_ready`:
each list entry is one iteration that fits before the deadline, and the end of
the list is the deadline passing.  An exited process raises at once; a status
in `[200, 500)` returns; any other observation continues the loop. -/
def waitLoop (statusUrl : String) : List PollObs → WaitOut
  | [] => WaitOut.failure (timedOutMsg statusUrl)
  | obs :: rest =>
    if obs.procExited then WaitOut.failure terminatedMsg
    else
      match obs.http with
      | some n => if 200 ≤ n && n < 500 then WaitOut.ready else waitLoop statusUrl rest
      | Option.none => waitLoop statusUrl rest

/-- Models `wait_for_vllm_ready(timeout)`.  Real time is abstracted: the
`timeout` argument only bounds how many poll iterations fit before the
deadline, which is exactly what `env.polls` encodes, and (as in the source) it
does not appear in the raised message. -/
def wait_for_vllm_ready (cfg : Cfg) (timeout : Nat) (env : Env) : WaitOut :=
  waitLoop cfg.statusUrl (env.polls.take timeout)

/-- Models `should_launch_vllm`. -/
def should_launch_vllm (cfg : Cfg) : Bool :=
  pyLower (cfg.chandra_method.getD "vllm") == "vllm" &&
  !(["0", "false", "no"].contains (pyLower (cfg.start_flag.getD "1")))

/-- Models `start_vllm_server` followed by its `wait_for_vllm_ready()` call:
spawn the subprocess unless one is already running, then block until ready;
a wait failure is a raised `RuntimeError` (`PyExc.other`). -/
def start_vllm_server (cfg : Cfg) (env : Env) (g : MgrState) :
    Except PyExc Unit × MgrState × List Effect :=
  let launched :=
    if g.vllmRunning then (g, ([] : List Effect))
    else ({ g with vllmRunning := true, vllmStarts := g.vllmStarts + 1 },
          [Effect.launchVllm])
  match wait_for_vllm_ready cfg 180 env with
  | WaitOut.ready => (Except.ok (), launched.1, launched.2)
  | WaitOut.failure msg => (Except.error (PyExc.other msg), launched.1, launched.2)

/-- Models `ensure_manager`: return the cached singleton when set; otherwise
(under the lock, whose double-check coincides with the plain check in this
sequential model) optionally launch vLLM, construct the `InferenceManager`
(handles are numbered by construction order) and cache it.  A startup failure
propagates and leaves `manager` unset. -/
def ensure_manager (cfg : Cfg) (env : Env) (g : MgrState) :
    Except PyExc Nat × MgrState × List Effect :=
  match g.manager with
  | some m => (Except.ok m, g, [])
  | Option.none =>
    let started :=
      if should_launch_vllm cfg then start_vllm_server cfg env g
      else (Except.ok (), g, [])
    match started with
    | (Except.error e, g1, effs) => (Except.error e, g1, effs)
    | (Except.ok _, g1, effs) =>
      (Except.ok g1.constructCount,
       { g1 with manager := some g1.constructCount,
                 constructCount := g1.constructCount + 1 },
       effs ++ [Effect.constructManager])

/-- Body of the `for idx, result in enumerate(results)` loop of `process_job`:
the page dict built from one enumerated engine result. -/
def buildPage (p : Nat × PageResult) : Page :=
  { page_index := p.1, markdown := p.2.markdown, html := p.2.html,
    token_count := p.2.token_count, chunks := p.2.chunks, error := p.2.error }

/-- Models `process_job`: decode the payload, write the temp artifact, run the
loader under `try/finally` (the unlink swallows `FileNotFoundError` only; any
other unlink failure propagates, superseding a loader exception as in Python),
reject empty page lists, build the batch, initialize the manager, call the
engine and fold the per-page results. -/
def process_job (cfg : Cfg) (env : Env) (g : MgrState) (j : JobInput) :
    Except PyExc JobResult × MgrState × List Effect :=
  match get_file_payload env j with
  | (Except.error e, effs) => (Except.error e, g, effs)
  | (Except.ok (file_bytes, filename), effs0) =>
    let loadRes := env.load_file file_bytes j.page_range
    let effs2 := effs0 ++ [Effect.writeTemp, Effect.loadFile, Effect.unlinkTemp]
    match env.unlink with
    | UnlinkOutcome.fail msg => (Except.error (PyExc.other msg), g, effs2)
    | _ =>
      match loadRes with
      | Except.error msg => (Except.error (PyExc.other msg), g, effs2)
      | Except.ok images =>
        if images.isEmpty then
          (Except.error (PyExc.inputError "No pages detected in the provided document."),
           g, effs2)
        else
          let batch := images.map (fun image =>
            { image := image, prompt := j.prompt,
              prompt_type := j.prompt_type.getD "ocr_layout" : BatchInputItem })
          match ensure_manager cfg env g with
          | (Except.error e, g1, effsM) => (Except.error e, g1, effs2 ++ effsM)
          | (Except.ok _, g1, effsM) =>
            match int_from_input j.max_output_tokens 8192 with
            | Except.error e => (Except.error e, g1, effs2 ++ effsM)
            | Except.ok maxTok =>
              match env.generate batch maxTok (bool_from_input j.include_images false)
                  (bool_from_input j.include_headers_footers false) with
              | Except.error msg =>
                (Except.error (PyExc.other msg), g1, effs2 ++ effsM ++ [Effect.inference])
              | Except.ok results =>
                let pages := results.enum.map buildPage
                (Except.ok
                  { filename := filename, num_pages := pages.length,
                    markdown := String.intercalate "\n\n" (pages.map Page.markdown),
                    html := String.intercalate "\n" (pages.map Page.html),
                    pages := pages },
                 g1, effs2 ++ effsM ++ [Effect.inference])

/-- The `job` dict as the handler reads it: `input` is `some j` when the key
holds a dict and `none` when it is absent or not a dict. -/
structure Job where
  input : Option JobInput
  jobId : Option String

/-- What the handler hands back to the RunPod runtime on a normal return. -/
inductive HandlerOut
  | result (r : JobResult)
  | errorDict (msg : String)
deriving DecidableEq, Repr

/-- Models `handler`: a missing or non-dict `input` yields an error dict, an
`InputError` from `process_job` is caught and converted to an error dict, and
every other exception propagates out of the handler. -/
def handler (cfg : Cfg) (env : Env) (g : MgrState) (job : Job) :
    Except PyExc HandlerOut × MgrState × List Effect :=
  match job.input with
  | Option.none =>
    (Except.ok (HandlerOut.errorDict "Job payload is missing the \x27input\x27 dictionary."),
     g, [])
  | some j =>
    match process_job cfg env g j with
    | (Except.ok r, g1, effs) => (Except.ok (HandlerOut.result r), g1, effs)
    | (Except.error (PyExc.inputError m), g1, effs) =>
      (Except.ok (HandlerOut.errorDict m), g1, effs)
    | (Except.error (PyExc.other m), g1, effs) =>
      (Except.error (PyExc.other m), g1, effs)

/-- The job-input dict with no keys at all. -/
def emptyInput : JobInput :=
  { file := Option.none, file_b64 := Option.none, file_url := Option.none,
    filename := Option.none, page_range := Option.none, prompt := Option.none,
    prompt_type := Option.none, max_output_tokens := Option.none,
    include_images := Option.none, include_headers_footers := Option.none,
    extraKeys := false }

/-- Environment-variable configuration with every variable unset. -/
def cfg0 : Cfg :=
  { chandra_method := Option.none, start_flag := Option.none,
    vllm_port := Option.none, vllm_host := Option.none,
    vllm_api_base := Option.none, chandra_model := Option.none }

/-- Fresh module state: no manager, no vLLM process. -/
def g0 : MgrState :=
  { manager := Option.none, constructCount := 0, vllmRunning := false, vllmStarts := 0 }

/-- An environment with inert collaborators and the given poll observations. -/
def pollEnv (ps : List PollObs) : Env :=
  { fetch := fun _ => Except.error "down",
    load_file := fun _ _ => Except.error "unused",
    unlink := UnlinkOutcome.ok,
    generate := fun _ _ _ _ => Except.error "unused",
    urlFileName := fun _ => "",
    polls := ps }

/-- Page result fixtures matching the worked example of the spec. -/
def prA : PageResult :=
  { markdown := "A", html := "<p>A</p>", token_count := 1, chunks := 0,
    error := Option.none }

/-- Second page result fixture. -/
def prB : PageResult :=
  { markdown := "B", html := "<p>B</p>", token_count := 1, chunks := 0,
    error := Option.none }

/-- A healthy environment: a two-page document, a responsive vLLM server and a
working inference engine. -/
def envOk : Env :=
  { fetch := fun _ => Except.error "down",
    load_file := fun _ _ => Except.ok [1, 2],
    unlink := UnlinkOutcome.ok,
    generate := fun _ _ _ _ => Except.ok [prA, prB],
    urlFileName := fun _ => "",
    polls := [{ procExited := false, http := some 200 }] }

/-- Helper: whether `needle` occurs as a contiguous subsequence of a
character list (substring containment on strings). -/
def containsSeq (needle : List Char) : List Char → Bool
  | [] => needle.isEmpty
  | l@(_ :: rest) => needle.isPrefixOf l || containsSeq needle rest

/-- Helper: a poll trace in which the process never exits and no observed
status lies in `[200, 500)` drives the loop to the timeout error. -/
theorem waitLoop_timeout (url : String) (l : List PollObs)
    (hq : ∀ p ∈ l, p.procExited = false ∧ ∀ n, p.http = some n → n < 200 ∨ 500 ≤ n) :
    waitLoop url l = WaitOut.failure (timedOutMsg url) := by
  induction l with
  | nil => rfl
  | cons p l ih =>
    have hp := hq p (by simp)
    cases hn : p.http with
    | none =>
      simp only [waitLoop, hp.1, Bool.false_eq_true, if_false, hn]
      exact ih (fun q hq2 => hq q (by simp [hq2]))
    | some n =>
      have hr := hp.2 n hn
      have hc : (200 ≤ n && n < 500) = false := by simp; omega
      simp only [waitLoop, hp.1, Bool.false_eq_true, if_false, hn, hc]
      exact ih (fun q hq2 => hq q (by simp [hq2]))

/-- Helper: the timeout message never coincides with the termination message,
whatever the status URL. -/
theorem timedOut_ne_terminated (url : String) : timedOutMsg url ≠ terminatedMsg := by
  intro h
  have h2 : (timedOutMsg url).data = terminatedMsg.data := congrArg String.data h
  rw [timedOutMsg, String.data_append] at h2
  have e1 : "Timed out waiting for vLLM server at ".data =
      'T' :: "imed out waiting for vLLM server at ".data := by decide
  have e2 : terminatedMsg.data = 'v' :: "LLM server terminated during startup.".data := by
    decide
  rw [e1, e2, List.cons_append] at h2
  simp only [List.cons.injEq] at h2
  exact absurd h2.1 (by decide)

/-- C5: the readiness health check treats the backing server as servable
exactly when the GET on `<base>/models` returns a status in `[200, 500)`: a
poll observing such a status makes `wait_for_vllm_ready` return success, a
poll observing any status outside that range does not (the loop keeps
polling), for every status value. -/
theorem c5_servable_iff_status_in_range (cfg : Cfg) (n : Nat) :
    (wait_for_vllm_ready cfg 180
        (pollEnv [{ procExited := false, http := some n }]) = WaitOut.ready ↔
      200 ≤ n ∧ n < 500) ∧
    (∀ rest, waitLoop cfg.statusUrl ({ procExited := false, http := some n } :: rest) =
      if 200 ≤ n && n < 500 then WaitOut.ready else waitLoop cfg.statusUrl rest) := by
  constructor
  · by_cases h1 : 200 ≤ n <;> by_cases h2 : n < 500 <;>
      simp [wait_for_vllm_ready, waitLoop, pollEnv, h1, h2]
  · intro rest
    by_cases h1 : 200 ≤ n <;> by_cases h2 : n < 500 <;> simp [waitLoop, h1, h2]

/-- C4 counterexample: with the default configuration and timeout 180, a
never-responding server makes `wait_for_vllm_ready` raise the timeout
`RuntimeError`, and that message does not contain the timeout duration `180`
(it only contains the target address). -/
theorem c4_counterexample :
    wait_for_vllm_ready cfg0 180 (pollEnv [{ procExited := false, http := Option.none }]) =
      WaitOut.failure (timedOutMsg "http://127.0.0.1:8000/v1/models") ∧
    containsSeq "180".toList (timedOutMsg "http://127.0.0.1:8000/v1/models").toList = false ∧
    containsSeq "http://127.0.0.1:8000/v1/models".toList
      (timedOutMsg "http://127.0.0.1:8000/v1/models").toList = true := by
  refine ⟨?_, by decide, by decide⟩
  decide

/-- C4 (amended): a supervised process that never responds within the timeout
makes `wait_for_vllm_ready` raise a `RuntimeError` whose message contains the
target address (but not the timeout duration); a process observed as exited
makes the poll loop raise immediately, ignoring every remaining iteration,
with a message distinct from the timeout one. -/
theorem c4_failure_modes (cfg : Cfg) (t : Nat) (env : Env) (obs : PollObs)
    (rest : List PollObs) (hexit : obs.procExited = true)
    (hquiet : ∀ p ∈ env.polls, p.procExited = false ∧
      ∀ n, p.http = some n → n < 200 ∨ 500 ≤ n) :
    waitLoop cfg.statusUrl (obs :: rest) = WaitOut.failure terminatedMsg ∧
    wait_for_vllm_ready cfg t env = WaitOut.failure (timedOutMsg cfg.statusUrl) ∧
    (∃ pre, timedOutMsg cfg.statusUrl = pre ++ cfg.statusUrl) ∧
    timedOutMsg cfg.statusUrl ≠ terminatedMsg := by
  refine ⟨by simp [waitLoop, hexit], ?_, ⟨"Timed out waiting for vLLM server at ", rfl⟩,
    timedOut_ne_terminated _⟩
  exact waitLoop_timeout cfg.statusUrl (env.polls.take t)
    (fun p hp => hquiet p (List.take_subset t env.polls hp))

/-- C4 witness: the amended theorem at a concrete exited process and a
concrete one-iteration quiet poll trace. -/
theorem c4_witness :
    waitLoop cfg0.statusUrl ({ procExited := true, http := Option.none } :: []) =
      WaitOut.failure terminatedMsg ∧
    wait_for_vllm_ready cfg0 180 (pollEnv [{ procExited := false, http := some 503 }]) =
      WaitOut.failure (timedOutMsg cfg0.statusUrl) ∧
    (∃ pre, timedOutMsg cfg0.statusUrl = pre ++ cfg0.statusUrl) ∧
    timedOutMsg cfg0.statusUrl ≠ terminatedMsg :=
  c4_failure_modes cfg0 180 (pollEnv [{ procExited := false, http := some 503 }])
    { procExited := true, http := Option.none } [] rfl
    (by
      intro p hp
      simp [pollEnv] at hp
      subst hp
      exact ⟨rfl, by intro n hn; cases hn; omega⟩)

/-- C7: a job input with no truthy inline content and no truthy remote
reference makes `process_job` fail with a validation error (the script's
no-file `InputError`, or the empty-input one when the dict is empty), with an
empty effect trace — no temp file write, no fetch, no loader call, no manager
initialization, no inference call — and the module state unchanged. -/
theorem c7_no_file_no_io (cfg : Cfg) (env : Env) (g : MgrState) (j : JobInput)
    (hfile : truthyStrOpt (pyOrStr j.file j.file_b64) = false)
    (hurl : truthyStrOpt j.file_url = false) :
    process_job cfg env g j =
      (Except.error (PyExc.inputError (if j.isEmptyDict then "Job input cannot be empty."
        else "Provide either \x27file\x27 (base64) or \x27file_url\x27 in the input.")),
       g, []) := by
  unfold process_job get_file_payload
  cases he : j.isEmptyDict <;> simp [he, hfile, hurl]

/-- C7 witness: a nonempty input dict carrying neither `file` nor `file_b64`
nor `file_url`. -/
theorem c7_witness :
    process_job cfg0 envOk g0 { emptyInput with filename := some "a.pdf" } =
      (Except.error (PyExc.inputError
        (if JobInput.isEmptyDict { emptyInput with filename := some "a.pdf" } then
          "Job input cannot be empty."
        else "Provide either \x27file\x27 (base64) or \x27file_url\x27 in the input.")),
       g0, []) :=
  c7_no_file_no_io cfg0 envOk g0 { emptyInput with filename := some "a.pdf" } rfl rfl

/-- C10: presence of the inline-content and remote-reference fields is decided
by truthiness: an input whose `file` value is the empty string (with no
`file_b64`) skips the inline branch — with no `file_url` it is reported with
the no-file `InputError` (not the malformed-payload one), and with a nonempty
`file_url` it falls through to the remote-fetch branch. -/
theorem c10_truthiness (env : Env) (j : JobInput) (u : String)
    (hfile : j.file = some "") (hb64 : j.file_b64 = Option.none) :
    (j.file_url = Option.none →
      get_file_payload env j =
        (Except.error (PyExc.inputError
          "Provide either \x27file\x27 (base64) or \x27file_url\x27 in the input."), [])) ∧
    (j.file_url = some u → u ≠ "" →
      get_file_payload env j =
        (match env.fetch u with
        | Except.error _ =>
          (Except.error (PyExc.inputError ("Failed to download file from " ++ u)),
           [Effect.fetchUrl u])
        | Except.ok bs =>
          (Except.ok (bs, (pyOrStr (pyOrStr j.filename (some (env.urlFileName u)))
            (some "document.pdf")).getD "document.pdf"), [Effect.fetchUrl u]))) := by
  have hempty : j.isEmptyDict = false := by
    simp [JobInput.isEmptyDict, hfile]
  have hskip : truthyStrOpt (pyOrStr j.file j.file_b64) = false := by
    rw [pyOrStr, hfile, hb64]
    decide
  constructor
  · intro hurl
    unfold get_file_payload
    simp only [hempty, Bool.false_eq_true, if_false, hskip, hurl]
    simp [truthyStrOpt]
  · intro hurl hne
    unfold get_file_payload
    have hie : u.isEmpty = false := by
      simpa [Bool.eq_false_iff, String.isEmpty_iff] using hne
    simp only [hempty, Bool.false_eq_true, if_false, hskip, hurl]
    simp only [truthyStrOpt, hie, Bool.not_false, if_true, Option.getD_some]

/-- C10 witness: the first branch of the truthiness theorem at a concrete
input holding `file = ""` and nothing else. -/
theorem c10_witness :
    get_file_payload envOk { emptyInput with file := some "" } =
      (Except.error (PyExc.inputError
        "Provide either \x27file\x27 (base64) or \x27file_url\x27 in the input."), []) :=
  (c10_truthiness envOk { emptyInput with file := some "" } "x" rfl rfl).1 rfl

/-- Helper: every alphabet character decodes back to its 6-bit value, is not
the padding character, and is ASCII. -/
theorem b64EncChar_spec : ∀ v : Fin 64,
    b64DecChar (b64EncChar v.val) = some v.val ∧ b64EncChar v.val ≠ '=' ∧
    (b64EncChar v.val).toNat ≤ 127 := by decide

/-- Helper: encoded output is pure ASCII, so `b64decode`'s ASCII guard never
fires on it. -/
theorem b64encodeList_ascii (bs : List Nat) (hb : ∀ x ∈ bs, x < 256) :
    (b64encodeList bs).any (fun c => 127 < c.toNat) = false := by
  induction bs using b64encodeList.induct with
  | case1 => rfl
  | case2 x =>
    have hx : x < 256 := hb x (by simp)
    have h1 := b64EncChar_spec ⟨x / 4, by omega⟩
    have h2 := b64EncChar_spec ⟨x % 4 * 16, by omega⟩
    simp [b64encodeList, decide_eq_false_iff_not, Nat.not_lt]
    exact ⟨h1.2.2, h2.2.2⟩
  | case3 x y =>
    have hx : x < 256 := hb x (by simp)
    have hy : y < 256 := hb y (by simp)
    have h1 := b64EncChar_spec ⟨x / 4, by omega⟩
    have h2 := b64EncChar_spec ⟨x % 4 * 16 + y / 16, by omega⟩
    have h3 := b64EncChar_spec ⟨y % 16 * 4, by omega⟩
    simp [b64encodeList, decide_eq_false_iff_not, Nat.not_lt]
    exact ⟨h1.2.2, h2.2.2, h3.2.2⟩
  | case4 x y z rest ih =>
    have hx : x < 256 := hb x (by simp)
    have hy : y < 256 := hb y (by simp)
    have hz : z < 256 := hb z (by simp)
    have h1 := b64EncChar_spec ⟨x / 4, by omega⟩
    have h2 := b64EncChar_spec ⟨x % 4 * 16 + y / 16, by omega⟩
    have h3 := b64EncChar_spec ⟨y % 16 * 4 + z / 64, by omega⟩
    have h4 := b64EncChar_spec ⟨z % 64, by omega⟩
    have hrest := ih (fun a ha => hb a (by simp [ha]))
    simp [b64encodeList, decide_eq_false_iff_not, Nat.not_lt, List.any_eq_false] at hrest ⊢
    exact ⟨h1.2.2, h2.2.2, h3.2.2, h4.2.2, hrest⟩

/-- Helper: the non-strict decode loop inverts the encoder chunk by chunk. -/
theorem a2bAux_encodeList (bs : List Nat) (hb : ∀ x ∈ bs, x < 256) :
    a2bAux (b64encodeList bs) 0 0 0 = some bs := by
  induction bs using b64encodeList.induct with
  | case1 => rfl
  | case2 x =>
    have hx : x < 256 := hb x (by simp)
    have h1 := b64EncChar_spec ⟨x / 4, by omega⟩
    have h2 := b64EncChar_spec ⟨x % 4 * 16, by omega⟩
    simp only [b64encodeList, a2bAux, h1.1, h1.2.1, h2.1, h2.2.1, if_neg, if_false]
    simp [a2bAux]
    omega
  | case3 x y =>
    have hx : x < 256 := hb x (by simp)
    have hy : y < 256 := hb y (by simp)
    have h1 := b64EncChar_spec ⟨x / 4, by omega⟩
    have h2 := b64EncChar_spec ⟨x % 4 * 16 + y / 16, by omega⟩
    have h3 := b64EncChar_spec ⟨y % 16 * 4, by omega⟩
    simp [b64encodeList, a2bAux, h1.1, h1.2.1, h2.1, h2.2.1, h3.1, h3.2.1]
    omega
  | case4 x y z rest ih =>
    have hx : x < 256 := hb x (by simp)
    have hy : y < 256 := hb y (by simp)
    have hz : z < 256 := hb z (by simp)
    have h1 := b64EncChar_spec ⟨x / 4, by omega⟩
    have h2 := b64EncChar_spec ⟨x % 4 * 16 + y / 16, by omega⟩
    have h3 := b64EncChar_spec ⟨y % 16 * 4 + z / 64, by omega⟩
    have h4 := b64EncChar_spec ⟨z % 64, by omega⟩
    have hrest := ih (fun a ha => hb a (by simp [ha]))
    simp [b64encodeList, a2bAux, h1.1, h1.2.1, h2.1, h2.2.1, h3.1, h3.2.1, h4.1,
      h4.2.1, hrest]
    omega

/-- Helper: byte-level round trip — decoding a canonical encoding restores the
bytes. -/
theorem b64decode_b64encode (bs : List Nat) (hb : ∀ x ∈ bs, x < 256) :
    b64decode (b64encode bs) = some bs := by
  rw [b64decode, b64encode]
  have hl : (String.mk (b64encodeList bs)).toList = b64encodeList bs := rfl
  rw [hl, b64encodeList_ascii bs hb, if_neg (by simp)]
  exact a2bAux_encodeList bs hb

/-- C6 counterexample: the inline payload `"ab=="` decodes (Python's lenient
decoder accepts this non-canonical form), `get_file_payload` returns the
decoded byte, yet re-encoding that byte yields `"aQ=="`, not the original
input — so decoding then re-encoding the stored bytes is not the identity on
the input string. -/
theorem c6_counterexample :
    get_file_payload envOk { emptyInput with file := some "ab==" } =
      (Except.ok ([105], "document.pdf"), []) ∧
    b64decode "ab==" = some [105] ∧
    b64encode [105] = "aQ==" ∧
    ("aQ==" : String) ≠ "ab==" :=
  ⟨rfl, by decide, by decide, by decide⟩

/-- C6 (amended): a present truthy inline payload that does not decode under
base64 makes `get_file_payload` fail with the malformed-payload
`InputError`; one that decodes makes it return exactly the decoded bytes; and
the round trip holds at the byte level — re-encoding any byte sequence and
decoding restores it (the string-level round trip holds only for canonical
encodings, as the counterexample shows). -/
theorem c6_decode (env : Env) (j : JobInput) (s : String)
    (hs : pyOrStr j.file j.file_b64 = some s) (hne : s ≠ "") :
    (b64decode s = Option.none →
      get_file_payload env j =
        (Except.error (PyExc.inputError "Unable to decode \x27file\x27 payload."), [])) ∧
    (∀ bs, b64decode s = some bs →
      get_file_payload env j = (Except.ok (bs, j.filename.getD "document.pdf"), [])) ∧
    (∀ bs : List Nat, (∀ x ∈ bs, x < 256) → b64decode (b64encode bs) = some bs) := by
  have hie : s.isEmpty = false := by
    simpa [Bool.eq_false_iff, String.isEmpty_iff] using hne
  have hsome : j.file.isNone = false ∨ j.file_b64.isNone = false := by
    unfold pyOrStr at hs
    by_cases ht : truthyStrOpt j.file = true
    · rw [if_pos ht] at hs
      left
      rw [hs]
      rfl
    · rw [if_neg ht] at hs
      right
      rw [hs]
      rfl
  have hempty : j.isEmptyDict = false := by
    unfold JobInput.isEmptyDict
    rcases hsome with h | h <;> simp [h]
  have htr : truthyStrOpt (pyOrStr j.file j.file_b64) = true := by
    rw [hs]
    simp [truthyStrOpt, hie]
  have hgd : (pyOrStr j.file j.file_b64).getD "" = s := by rw [hs]; rfl
  refine ⟨?_, ?_, fun bs hb => b64decode_b64encode bs hb⟩
  · intro hdec
    unfold get_file_payload
    simp only [hempty, Bool.false_eq_true, if_false, htr, if_true, hgd, hdec]
  · intro bs hdec
    unfold get_file_payload
    simp only [hempty, Bool.false_eq_true, if_false, htr, if_true, hgd, hdec]

/-- C6 witness: the amended theorem at the inline payload `"aGk="` (bytes
`"hi"`), via the `file_b64` fallback key. -/
theorem c6_witness :
    get_file_payload envOk { emptyInput with file_b64 := some "aGk=" } =
      (Except.ok ([104, 105], "document.pdf"), []) ∧
    b64decode (b64encode [104, 105]) = some [104, 105] :=
  ⟨(c6_decode envOk { emptyInput with file_b64 := some "aGk=" } "aGk=" rfl
      (by decide)).2.1 [104, 105] (by decide),
   (c6_decode envOk { emptyInput with file_b64 := some "aGk=" } "aGk=" rfl
      (by decide)).2.2 [104, 105] (by decide)⟩

/-- Helper: projecting a field of the built pages equals projecting the
corresponding field of the engine results. -/
theorem buildPage_map_proj {α : Type} (rs : List PageResult) (f : Page → α)
    (g : PageResult → α) (h : ∀ p : Nat × PageResult, f (buildPage p) = g p.2) :
    (rs.enum.map buildPage).map f = rs.map g := by
  rw [List.map_map]
  have hfg : (f ∘ buildPage) = (g ∘ Prod.snd) := funext fun p => h p
  rw [hfg, ← List.map_map, List.enum_map_snd]

/-- Helper: the built pages carry their positions as `page_index`. -/
theorem buildPage_map_idx (rs : List PageResult) :
    (rs.enum.map buildPage).map Page.page_index = List.range rs.length := by
  rw [List.map_map]
  have hfst : (Page.page_index ∘ buildPage) = (Prod.fst : Nat × PageResult → Nat) := rfl
  rw [hfst, List.enum_map_fst]

/-- C1: whenever the pipeline reaches the inference engine and it yields the
page-result list `results`, `process_job` succeeds with a `JobResult` whose
`pages` has `results.length` entries, whose `page_index` fields are exactly
the positions `0, 1, ...` in loader order, whose `markdown` is the per-page
markdowns joined with a blank line, whose `html` is the per-page htmls joined
with a newline, whose `num_pages` is the page count, and whose per-page
`error` markers are preserved verbatim. -/
theorem c1_aggregation (cfg : Cfg) (env : Env) (g : MgrState) (j : JobInput)
    (bs : List Nat) (fn : String) (effs0 : List Effect) (imgs : List Nat)
    (h : Nat) (g1 : MgrState) (effsM : List Effect) (mt : Int)
    (results : List PageResult)
    (hp : get_file_payload env j = (Except.ok (bs, fn), effs0))
    (hu : env.unlink = UnlinkOutcome.ok ∨ env.unlink = UnlinkOutcome.notFound)
    (hl : env.load_file bs j.page_range = Except.ok imgs)
    (hne : imgs ≠ [])
    (hm : ensure_manager cfg env g = (Except.ok h, g1, effsM))
    (ht : int_from_input j.max_output_tokens 8192 = Except.ok mt)
    (hg : env.generate (imgs.map (fun image =>
        { image := image, prompt := j.prompt,
          prompt_type := j.prompt_type.getD "ocr_layout" : BatchInputItem })) mt
        (bool_from_input j.include_images false)
        (bool_from_input j.include_headers_footers false) = Except.ok results) :
    ∃ jr, process_job cfg env g j =
        (Except.ok jr, g1,
         effs0 ++ [Effect.writeTemp, Effect.loadFile, Effect.unlinkTemp] ++ effsM ++
           [Effect.inference]) ∧
      jr.filename = fn ∧
      jr.num_pages = results.length ∧
      jr.pages.length = results.length ∧
      jr.pages.map Page.page_index = List.range results.length ∧
      jr.pages.map Page.markdown = results.map PageResult.markdown ∧
      jr.pages.map Page.html = results.map PageResult.html ∧
      jr.pages.map Page.error = results.map PageResult.error ∧
      jr.markdown = String.intercalate "\n\n" (results.map PageResult.markdown) ∧
      jr.html = String.intercalate "\n" (results.map PageResult.html) := by
  have hie : imgs.isEmpty = false := by
    cases imgs
    · exact absurd rfl hne
    · rfl
  unfold process_job
  rcases hu with hu | hu <;>
    simp only [hp, hu, hie, Bool.false_eq_true, if_false, hl, hm, ht, hg] <;>
    exact ⟨_, rfl, rfl,
      by simp [List.enum_length],
      by simp [List.enum_length],
      buildPage_map_idx results,
      by rw [buildPage_map_proj results Page.markdown PageResult.markdown fun p => rfl],
      by rw [buildPage_map_proj results Page.html PageResult.html fun p => rfl],
      by rw [buildPage_map_proj results Page.error PageResult.error fun p => rfl],
      by rw [buildPage_map_proj results Page.markdown PageResult.markdown fun p => rfl],
      by rw [buildPage_map_proj results Page.html PageResult.html fun p => rfl]⟩

/-- A job input carrying the inline payload `"aGk="` (the bytes `"hi"`). -/
def jDoc : JobInput := { emptyInput with file := some "aGk=" }

/-- Module state after the first successful manager initialization under the
default configuration. -/
def gReady : MgrState :=
  { manager := some 0, constructCount := 1, vllmRunning := true, vllmStarts := 1 }

example : (process_job cfg0 envOk g0 jDoc).1 =
    Except.ok
      { filename := "document.pdf", num_pages := 2, markdown := "A\n\nB",
        html := "<p>A</p>\n<p>B</p>",
        pages := [
          { page_index := 0, markdown := "A", html := "<p>A</p>", token_count := 1,
            chunks := 0, error := Option.none },
          { page_index := 1, markdown := "B", html := "<p>B</p>", token_count := 1,
            chunks := 0, error := Option.none }] } := rfl

/-- C1 witness: the aggregation theorem at the concrete two-page document of
the spec's worked example. -/
theorem c1_witness :
    ∃ jr, process_job cfg0 envOk g0 jDoc =
        (Except.ok jr, gReady,
         [] ++ [Effect.writeTemp, Effect.loadFile, Effect.unlinkTemp] ++
           [Effect.launchVllm, Effect.constructManager] ++ [Effect.inference]) ∧
      jr.filename = "document.pdf" ∧
      jr.num_pages = [prA, prB].length ∧
      jr.pages.length = [prA, prB].length ∧
      jr.pages.map Page.page_index = List.range [prA, prB].length ∧
      jr.pages.map Page.markdown = [prA, prB].map PageResult.markdown ∧
      jr.pages.map Page.html = [prA, prB].map PageResult.html ∧
      jr.pages.map Page.error = [prA, prB].map PageResult.error ∧
      jr.markdown = String.intercalate "\n\n" ([prA, prB].map PageResult.markdown) ∧
      jr.html = String.intercalate "\n" ([prA, prB].map PageResult.html) :=
  c1_aggregation cfg0 envOk g0 jDoc [104, 105] "document.pdf" [] [1, 2] 0 gReady
    [Effect.launchVllm, Effect.constructManager] 8192 [prA, prB] rfl (Or.inl rfl) rfl
    (by decide) rfl rfl rfl

/-- Helper: number of unlink attempts recorded in a trace. -/
def countUnlink : List Effect → Nat
  | [] => 0
  | Effect.unlinkTemp :: rest => countUnlink rest + 1
  | _ :: rest => countUnlink rest

/-- Helper: `countUnlink` distributes over concatenation. -/
theorem countUnlink_append (l1 l2 : List Effect) :
    countUnlink (l1 ++ l2) = countUnlink l1 + countUnlink l2 := by
  induction l1 with
  | nil => simp [countUnlink]
  | cons a l ih =>
    cases a <;> simp [countUnlink, ih] <;> try omega

/-- Helper: the payload stage performs no unlink (its trace is empty or one
fetch). -/
theorem get_file_payload_no_unlink (env : Env) (j : JobInput) :
    countUnlink (get_file_payload env j).2 = 0 := by
  unfold get_file_payload
  by_cases h1 : j.isEmptyDict = true
  · simp [h1, countUnlink]
  · simp only [h1, Bool.false_eq_true, if_false]
    by_cases h2 : truthyStrOpt (pyOrStr j.file j.file_b64) = true
    · cases hd : b64decode ((pyOrStr j.file j.file_b64).getD "") <;>
        simp [h2, hd, countUnlink]
    · by_cases h3 : truthyStrOpt j.file_url = true
      · cases hf : env.fetch (j.file_url.getD "") <;>
          simp [h2, h3, hf, countUnlink]
      · simp [h2, h3, countUnlink]

/-- Helper: manager initialization performs no unlink. -/
theorem ensure_manager_no_unlink (cfg : Cfg) (env : Env) (g : MgrState) :
    countUnlink (ensure_manager cfg env g).2.2 = 0 := by
  unfold ensure_manager start_vllm_server
  repeat' split
  all_goals simp [countUnlink, countUnlink_append]

/-- C3 counterexample: a deletion failure other than `FileNotFoundError`
(here a permission error) is not swallowed: it escapes `process_job` as a
raised exception, so it does fail the caller, contradicting the claim that
any other deletion failure is logged but not raised. -/
theorem c3_counterexample :
    process_job cfg0 { envOk with unlink := UnlinkOutcome.fail "PermissionError" } g0 jDoc =
      (Except.error (PyExc.other "PermissionError"), g0,
       [Effect.writeTemp, Effect.loadFile, Effect.unlinkTemp]) := rfl

/-- C3 (amended): once the temp artifact is created (the payload stage
succeeded), exactly one release attempt occurs on every exit path of
`process_job` — loader success, empty result or raised exception alike; a
release finding the file already absent (`FileNotFoundError`) leaves the
outcome exactly as a successful release; but any other deletion failure is
raised to the caller (superseding the job), not logged and swallowed. -/
theorem c3_release_once (cfg : Cfg) (env : Env) (g : MgrState) (j : JobInput)
    (bs : List Nat) (fn : String) (effs0 : List Effect)
    (hp : get_file_payload env j = (Except.ok (bs, fn), effs0)) :
    countUnlink (process_job cfg env g j).2.2 = 1 ∧
    (env.unlink = UnlinkOutcome.notFound →
      process_job cfg env g j =
        process_job cfg { env with unlink := UnlinkOutcome.ok } g j) ∧
    (∀ msg, env.unlink = UnlinkOutcome.fail msg →
      process_job cfg env g j =
        (Except.error (PyExc.other msg), g,
         effs0 ++ [Effect.writeTemp, Effect.loadFile, Effect.unlinkTemp])) := by
  have h0 : countUnlink effs0 = 0 := by
    have := get_file_payload_no_unlink env j
    rw [hp] at this
    exact this
  refine ⟨?_, ?_, ?_⟩
  · have hm0 := ensure_manager_no_unlink cfg env g
    unfold process_job
    simp only [hp]
    rcases hM : ensure_manager cfg env g with ⟨r, g1, effsM⟩
    rw [hM] at hm0
    split
    · simp [countUnlink_append, countUnlink, h0]
    · split
      · simp [countUnlink_append, countUnlink, h0]
      · split
        · simp [countUnlink_append, countUnlink, h0]
        · split
          · simp_all [countUnlink_append, countUnlink]
          · split
            · simp_all [countUnlink_append, countUnlink]
            · split <;> simp_all [countUnlink_append, countUnlink]
  · intro hnf
    have hp2 : get_file_payload { env with unlink := UnlinkOutcome.ok } j =
        (Except.ok (bs, fn), effs0) := hp
    have hmeq : ensure_manager cfg { env with unlink := UnlinkOutcome.ok } g =
        ensure_manager cfg env g := rfl
    unfold process_job
    simp only [hp, hp2, hnf, hmeq]
  · intro msg hf
    unfold process_job
    simp only [hp, hf]

/-- C3 witness: the amended theorem at a concrete job whose loader raises,
checking that the single release attempt still happens. -/
theorem c3_witness :
    countUnlink (process_job cfg0
      { envOk with load_file := fun _ _ => Except.error "loader blew up" } g0 jDoc).2.2 = 1 ∧
    ((process_job cfg0
      { envOk with load_file := fun _ _ => Except.error "loader blew up" } g0 jDoc).2.2 =
      [Effect.writeTemp, Effect.loadFile, Effect.unlinkTemp]) :=
  ⟨(c3_release_once cfg0
      { envOk with load_file := fun _ _ => Except.error "loader blew up" } g0 jDoc
      [104, 105] "document.pdf" [] rfl).1, rfl⟩

/-- C8: a document for which the loader returns an empty page sequence makes
`process_job` fail with the no-pages `InputError`, with the module state
unchanged (so the inference-client singleton was not initialized), no
manager/launch/inference effect in the trace, and the temp artifact already
released (the unlink attempt is in the trace). -/
theorem c8_empty_pages (cfg : Cfg) (env : Env) (g : MgrState) (j : JobInput)
    (bs : List Nat) (fn : String) (effs0 : List Effect)
    (hp : get_file_payload env j = (Except.ok (bs, fn), effs0))
    (hu : env.unlink = UnlinkOutcome.ok ∨ env.unlink = UnlinkOutcome.notFound)
    (hl : env.load_file bs j.page_range = Except.ok []) :
    process_job cfg env g j =
      (Except.error (PyExc.inputError "No pages detected in the provided document."),
       g, effs0 ++ [Effect.writeTemp, Effect.loadFile, Effect.unlinkTemp]) := by
  unfold process_job
  rcases hu with hu | hu <;> simp only [hp, hu, hl, List.isEmpty_nil, if_true]

/-- C8 witness: the empty-pages theorem at a concrete loader returning no
pages. -/
theorem c8_witness :
    process_job cfg0 { envOk with load_file := fun _ _ => Except.ok [] } g0 jDoc =
      (Except.error (PyExc.inputError "No pages detected in the provided document."),
       g0, [] ++ [Effect.writeTemp, Effect.loadFile, Effect.unlinkTemp]) :=
  c8_empty_pages cfg0 { envOk with load_file := fun _ _ => Except.ok [] } g0 jDoc
    [104, 105] "document.pdf" [] rfl (Or.inl rfl) rfl

/-- C2 counterexample: a loader exception is not caught by `handler`: the job
fails by propagating the raw exception out of the handler rather than by
returning an error dict. -/
theorem c2_counterexample :
    handler cfg0 { envOk with load_file := fun _ _ => Except.error "loader exploded" } g0
      { input := some jDoc, jobId := Option.none } =
      (Except.error (PyExc.other "loader exploded"), g0,
       [Effect.writeTemp, Effect.loadFile, Effect.unlinkTemp]) := rfl

/-- C2 (amended): the handler converts a missing or non-dict `input` and any
`InputError` (validation failure) into a structured error dict, and passes
successes through; but every other exception raised by the pipeline (loader,
startup, engine, cleanup) propagates out of the handler uncaught — only the
outer RunPod runtime can stop it from terminating the worker. -/
theorem c2_error_boundary (cfg : Cfg) (env : Env) (g : MgrState) (job : Job) :
    (job.input = Option.none →
      handler cfg env g job =
        (Except.ok (HandlerOut.errorDict
          "Job payload is missing the \x27input\x27 dictionary."), g, [])) ∧
    (∀ j r g1 effs, job.input = some j →
      process_job cfg env g j = (Except.ok r, g1, effs) →
      handler cfg env g job = (Except.ok (HandlerOut.result r), g1, effs)) ∧
    (∀ j m g1 effs, job.input = some j →
      process_job cfg env g j = (Except.error (PyExc.inputError m), g1, effs) →
      handler cfg env g job = (Except.ok (HandlerOut.errorDict m), g1, effs)) ∧
    (∀ j m g1 effs, job.input = some j →
      process_job cfg env g j = (Except.error (PyExc.other m), g1, effs) →
      handler cfg env g job = (Except.error (PyExc.other m), g1, effs)) := by
  refine ⟨fun hin => ?_, fun j r g1 effs hin hpj => ?_, fun j m g1 effs hin hpj => ?_,
    fun j m g1 effs hin hpj => ?_⟩
  · unfold handler
    simp only [hin]
  · unfold handler
    simp only [hin, hpj]
  · unfold handler
    simp only [hin, hpj]
  · unfold handler
    simp only [hin, hpj]

/-- A job input whose inline payload does not decode. -/
def jBad : JobInput := { emptyInput with file := some "ab" }

/-- A job dict wrapping `jBad`. -/
def jobBad : Job := { input := some jBad, jobId := Option.none }

/-- C2 witness: the amended boundary theorem at a concrete validation failure
(an undecodable inline payload), which the handler converts to an error
dict. -/
theorem c2_witness :
    handler cfg0 envOk g0 jobBad =
      (Except.ok (HandlerOut.errorDict "Unable to decode \x27file\x27 payload."), g0, []) :=
  (c2_error_boundary cfg0 envOk g0 jobBad).2.2.1 jBad
    "Unable to decode \x27file\x27 payload." g0 [] rfl rfl

/-- Helper: the module state after `n` further `ensure_manager` calls. -/
def ensureIter (cfg : Cfg) (env : Env) : Nat → MgrState → MgrState
  | 0, g => g
  | n + 1, g => ensureIter cfg env n (ensure_manager cfg env g).2.1

/-- C9: `ensure_manager` is idempotent — with the singleton cached, a call
returns the cached handle with no effects and no state change (so any number
of further calls leaves the state untouched); a successful call caches the
handle it returns, every later call returns that same handle without
constructing a new manager or relaunching the server, and one call adds at
most one construction and at most one server launch. -/
theorem c9_manager_singleton (cfg : Cfg) (env : Env) (g : MgrState) :
    (∀ m, g.manager = some m → ensure_manager cfg env g = (Except.ok m, g, [])) ∧
    (∀ m, g.manager = some m → ∀ n, ensureIter cfg env n g = g) ∧
    (∀ h g1 effs, ensure_manager cfg env g = (Except.ok h, g1, effs) →
      g1.manager = some h ∧
      ensure_manager cfg env g1 = (Except.ok h, g1, []) ∧
      g1.constructCount ≤ g.constructCount + 1 ∧
      g1.vllmStarts ≤ g.vllmStarts + 1) := by
  have hcached : ∀ m, g.manager = some m → ensure_manager cfg env g = (Except.ok m, g, []) := by
    intro m hm
    unfold ensure_manager
    simp only [hm]
  refine ⟨hcached, ?_, ?_⟩
  · intro m hm n
    induction n with
    | zero => rfl
    | succ k ih =>
      show ensureIter cfg env k (ensure_manager cfg env g).2.1 = g
      rw [hcached m hm]
      exact ih
  · intro h g1 effs hcall
    rcases hgm : g.manager with _ | m
    · unfold ensure_manager at hcall
      simp only [hgm] at hcall
      rcases hst : (if should_launch_vllm cfg then start_vllm_server cfg env g
          else (Except.ok (), g, [])) with ⟨res, g2, effs2⟩
      rw [hst] at hcall
      have hg2 : g2.constructCount = g.constructCount ∧ g2.vllmStarts ≤ g.vllmStarts + 1 := by
        rcases hlv : should_launch_vllm cfg with _ | _ <;> rw [hlv] at hst
        · simp only [Bool.false_eq_true, if_false] at hst
          cases hst
          exact ⟨rfl, Nat.le_succ _⟩
        · simp only [if_true] at hst
          unfold start_vllm_server at hst
          rcases hwait : wait_for_vllm_ready cfg 180 env with _ | msg <;>
            rw [hwait] at hst <;>
            rcases hvr : g.vllmRunning with _ | _ <;>
            simp only [hvr, Bool.false_eq_true, if_false, if_true] at hst <;>
            cases hst <;> simp
      rcases res with e | u
      · cases hcall
      · simp only [] at hcall
        cases hcall
        refine ⟨rfl, ?_, by simp [hg2.1], by simpa using hg2.2⟩
        unfold ensure_manager
        simp only []
    · rw [hcached m hgm] at hcall
      cases hcall
      exact ⟨hgm, hcached _ hgm, Nat.le_succ _, Nat.le_succ _⟩

/-- C9 witness: the singleton theorem at the initialized state `gReady`: the
cached handle `0` is returned with no effects and the state never changes
again. -/
theorem c9_witness :
    ensure_manager cfg0 envOk gReady = (Except.ok 0, gReady, []) ∧
    ensureIter cfg0 envOk 3 gReady = gReady :=
  ⟨(c9_manager_singleton cfg0 envOk gReady).1 0 rfl,
   (c9_manager_singleton cfg0 envOk gReady).2.1 0 rfl 3⟩

end Chandra
